import Mathlib

/-!
Verification of the midi-cable MIDI forwarder.

The program's message validation and forwarding logic (Go, `src/fwd.go` and
`src/main.go`, plus the virtual-port variant in the unnamed Go file defining
`VirtualPort`) is shallowly embedded below.  MIDI bytes are modelled as `Nat`;
the only byte-level operation the program performs is the bitwise mask
`b & 0xF0`, which `Nat.land` models exactly (the mask keeps bits 4..7, so the
result is the same whether or not `b` is reduced mod 256).
-/

namespace MidiCable

/-- The high nibble of a status byte, Go `msg[0] & 0xF0`. -/
def statusNibble (b : Nat) : Nat := b &&& 0xF0

/-- Translation of Go `isValidMIDIMessage` (fwd.go lines 112-143): validates
the length of a MIDI message based on its type.  The outer switch is on the
first byte's high nibble; the system-message branch (nibble 0xF0) first
requires a length of at least 2 and then switches on the second byte
`msg[1]`. -/
def isValidMIDIMessage (msg : List Nat) : Bool :=
  match msg with
  | [] => false
  | b :: rest =>
    let status := statusNibble b
    if status == 0x80 || status == 0x90 || status == 0xA0 ||
        status == 0xB0 || status == 0xE0 then
      (b :: rest).length == 3
    else if status == 0xC0 || status == 0xD0 then
      (b :: rest).length == 2
    else if status == 0xF0 then
      match rest with
      | [] => false
      | c :: _ =>
        if c == 0xF0 then
          true
        else if c == 0xF1 || c == 0xF3 then
          (b :: rest).length == 2
        else if c == 0xF2 then
          (b :: rest).length == 3
        else if c == 0xF6 || c == 0xF7 || c == 0xF8 || c == 0xFA ||
            c == 0xFB || c == 0xFC then
          (b :: rest).length == 1
        else
          false
    else
      false

/-- The status nibbles recognized by the outer switch of
`isValidMIDIMessage`. -/
def recognizedStatuses : List Nat :=
  [0x80, 0x90, 0xA0, 0xB0, 0xC0, 0xD0, 0xE0, 0xF0]

/-- What the forwarding callback decides to do with one received message:
send some bytes to the output, skip an invalid message (logging it), or do
nothing for an empty message. -/
inductive ForwardDecision where
  | send (bytes : List Nat)
  | skip
  | ignore
deriving DecidableEq, Repr

/-- Translation of the per-message body of the `Listen` callback registered
by `Forwarder.Start` (fwd.go lines 76-99): a nonempty message whose first
byte has high nibble 0xC0 and whose length is at least 2 is truncated to its
first 2 bytes and sent; otherwise a message passing `isValidMIDIMessage` is
sent as-is; otherwise it is skipped.  An empty message is ignored. -/
def forwarderOnMessage (msg : List Nat) : ForwardDecision :=
  if 0 < msg.length then
    if 2 ≤ msg.length ∧ statusNibble (msg.headD 0) = 0xC0 then
      ForwardDecision.send (msg.take 2)
    else if isValidMIDIMessage msg then
      ForwardDecision.send msg
    else
      ForwardDecision.skip
  else
    ForwardDecision.ignore

/-- Outcome of one callback invocation once the output device's reaction is
taken into account.  `sendFailed` records that `Send` returned an error: the
callback only logs it and returns; nothing is propagated. -/
inductive MsgOutcome where
  | forwarded (bytes : List Nat)
  | sendFailed (bytes : List Nat)
  | skippedInvalid (bytes : List Nat)
  | ignoredEmpty
deriving DecidableEq, Repr

/-- One invocation of the forwarder callback against an output device modelled
by `sendOk` (whether `Send` succeeds on the given bytes).  The invocation is
total: every branch of the Go callback ends by returning to the driver. -/
def handleMessage (sendOk : List Nat → Bool) (msg : List Nat) : MsgOutcome :=
  match forwarderOnMessage msg with
  | ForwardDecision.send bytes =>
    if sendOk bytes then MsgOutcome.forwarded bytes else MsgOutcome.sendFailed bytes
  | ForwardDecision.skip => MsgOutcome.skippedInvalid msg
  | ForwardDecision.ignore => MsgOutcome.ignoredEmpty

/-- The setup errors `Forwarder.Start` can return before listening begins. -/
inductive StartError where
  | openInputFailed
  | openOutputFailed
  | listenFailed
deriving DecidableEq, Repr

/-- Translation of the control flow of `Forwarder.Start` (fwd.go lines
59-109): open input, open output, register the listener; each setup failure
is returned to the caller.  Once listening, every received message is handled
by the callback and `Start` returns nil after context cancellation; the trace
of per-message outcomes is returned in the success case. -/
def forwarderStart (openInOk openOutOk listenOk : Bool)
    (sendOk : List Nat → Bool) (msgs : List (List Nat)) :
    Except StartError (List MsgOutcome) :=
  if !openInOk then Except.error StartError.openInputFailed
  else if !openOutOk then Except.error StartError.openOutputFailed
  else if !listenOk then Except.error StartError.listenFailed
  else Except.ok (msgs.map (handleMessage sendOk))

/-- Translation of the `Listen` callback registered by `VirtualPort.Start`
(unnamed Go file, lines 53-73): the received bytes are passed to
`outPort.Send` unconditionally; a send error is logged and not propagated.
No validation is performed. -/
def virtualPortOnMessage (sendOk : List Nat → Bool) (msg : List Nat) : MsgOutcome :=
  if sendOk msg then MsgOutcome.forwarded msg else MsgOutcome.sendFailed msg

/-- The bytes a callback invocation handed to `Send`, if any. -/
def attemptedSend : MsgOutcome → Option (List Nat)
  | MsgOutcome.forwarded bytes => some bytes
  | MsgOutcome.sendFailed bytes => some bytes
  | MsgOutcome.skippedInvalid _ => none
  | MsgOutcome.ignoredEmpty => none

/-- A MIDI port as the lookup code sees it: an identity and the display name
returned by `String()`. -/
structure Port where
  uid : Nat
  name : String
deriving DecidableEq, Repr

/-- The port-scanning loop of `NewForwarder` (fwd.go lines 29-51): walk the
enumeration in order and keep the first port whose name equals the requested
name, or none. -/
def findPort (ports : List Port) (target : String) : Option Port :=
  match ports with
  | [] => none
  | p :: rest => if p.name == target then some p else findPort rest target

/-- A forwarder holds the selected input and output ports. -/
structure Forwarder where
  input : Port
  output : Port
deriving DecidableEq, Repr

/-- The two lookup failures `NewForwarder` can report. -/
inductive LookupError where
  | inputNotFound (n : String)
  | outputNotFound (n : String)
deriving DecidableEq, Repr

/-- Translation of `NewForwarder` (fwd.go lines 17-57), with the enumerations
returned by the driver passed as arguments: find the input port by name, then
the output port by name; a miss in either direction returns an error and no
forwarder is constructed. -/
def NewForwarder (ins outs : List Port) (inputName outputName : String) :
    Except LookupError Forwarder :=
  match findPort ins inputName with
  | none => Except.error (LookupError.inputNotFound inputName)
  | some input =>
    match findPort outs outputName with
    | none => Except.error (LookupError.outputNotFound outputName)
    | some output => Except.ok ⟨input, output⟩

/-- `p` is the first port of `ports` carrying `target` as its name: everything
before it in enumeration order has a different name. -/
def IsFirstMatch (ports : List Port) (target : String) (p : Port) : Prop :=
  p.name = target ∧
    ∃ pre post, ports = pre ++ p :: post ∧ ∀ q ∈ pre, q.name ≠ target

/-- Claim C1: the spec says validate([0xF8]) is Valid (clock, 1 byte) and that
every system real-time status byte is accepted at the 1-byte length of the
standard MIDI table.  The code disagrees: its system-message branch first
demands a length of at least 2 and then switches on the second byte, so the
1-byte real-time arm (return len(msg) == 1) is unreachable and the validator
in fact rejects every single-byte message, [0xF8] included. -/
theorem clock_single_byte_rejected :
    isValidMIDIMessage [0xF8] = false ∧ ∀ b : Nat, isValidMIDIMessage [b] = false := by
  refine ⟨rfl, ?_⟩
  intro b
  simp [isValidMIDIMessage]

/-- Claim C2: the spec says every sequence starting with the SysEx status byte
0xF0 is Valid regardless of length.  The code disagrees: it rejects the
1-byte [0xF0] through its length guard, rejects a genuine SysEx frame
[0xF0, 0x41, 0x34, 0xF7] because it looks for the subtype in the second byte,
and accepts a 0xF0-led sequence only when the second byte is again 0xF0. -/
theorem sysex_start_rejected :
    isValidMIDIMessage [0xF0] = false
    ∧ isValidMIDIMessage [0xF0, 0x41, 0x34, 0xF7] = false
    ∧ isValidMIDIMessage [0xF0, 0xF0] = true := by
  refine ⟨rfl, by decide, by decide⟩

/-- Claim C5: a message whose status nibble is one of the channel-voice types
0x80, 0x90, 0xA0, 0xB0, 0xE0 is valid exactly when its length is 3, and one
whose status nibble is 0xC0 or 0xD0 exactly when its length is 2; in
particular [0x90, 0x40, 0x7F] is valid and [0xB0, 0x07] is not. -/
theorem channelVoice_length_rule (b : Nat) (rest : List Nat) :
    ((statusNibble b = 0x80 ∨ statusNibble b = 0x90 ∨ statusNibble b = 0xA0 ∨
        statusNibble b = 0xB0 ∨ statusNibble b = 0xE0) →
      (isValidMIDIMessage (b :: rest) = true ↔ (b :: rest).length = 3))
    ∧ ((statusNibble b = 0xC0 ∨ statusNibble b = 0xD0) →
      (isValidMIDIMessage (b :: rest) = true ↔ (b :: rest).length = 2))
    ∧ isValidMIDIMessage [0x90, 0x40, 0x7F] = true
    ∧ isValidMIDIMessage [0xB0, 0x07] = false := by
  refine ⟨?_, ?_, by decide, by decide⟩
  · intro h
    rcases h with h | h | h | h | h <;> simp [isValidMIDIMessage, h]
  · intro h
    rcases h with h | h <;> simp [isValidMIDIMessage, h]

/-- Witness for C5 at concrete inputs: the control-change message [0xB0, 0x07]
falls under the 3-byte rule (so it is invalid at length 2), and [0xC0, 0x01]
under the 2-byte rule. -/
theorem channelVoice_length_rule_witness :
    (isValidMIDIMessage [0xB0, 0x07] = true ↔ ([0xB0, 0x07] : List Nat).length = 3)
    ∧ (isValidMIDIMessage [0xC0, 0x01] = true ↔ ([0xC0, 0x01] : List Nat).length = 2) :=
  ⟨(channelVoice_length_rule 0xB0 [0x07]).1 (by decide),
   (channelVoice_length_rule 0xC0 [0x01]).2.1 (by decide)⟩

/-- Claim C6: the empty sequence is invalid, and so is every sequence whose
status nibble is not one of the eight recognized MIDI status nibbles. -/
theorem invalid_empty_and_unrecognized :
    isValidMIDIMessage [] = false
    ∧ ∀ (b : Nat) (rest : List Nat), statusNibble b ∉ recognizedStatuses →
      isValidMIDIMessage (b :: rest) = false := by
  refine ⟨rfl, ?_⟩
  intro b rest h
  simp only [recognizedStatuses, List.mem_cons, List.not_mem_nil, or_false] at h
  push_neg at h
  obtain ⟨h80, h90, hA0, hB0, hC0, hD0, hE0, hF0⟩ := h
  simp [isValidMIDIMessage, h80, h90, hA0, hB0, hC0, hD0, hE0, hF0]

/-- Witness for C6: the data byte 0x40 carries the unrecognized status nibble
0x40, so [0x40, 1, 2] is invalid. -/
theorem invalid_empty_and_unrecognized_witness :
    isValidMIDIMessage [0x40, 1, 2] = false :=
  invalid_empty_and_unrecognized.2 0x40 [1, 2] (by decide)

/-- Claim C9: the validator is pure and stateless.  In this embedding it is a
function of the byte list alone (it reads no other state and returns a Bool
without touching its input), and this theorem pins the stronger functional
fact: its result depends on nothing but the length and the first two bytes,
so any two invocations agreeing on those agree on the result. -/
theorem isValid_deterministic_and_local (m₁ m₂ : List Nat)
    (hlen : m₁.length = m₂.length)
    (h0 : m₁[0]? = m₂[0]?) (h1 : m₁[1]? = m₂[1]?) :
    isValidMIDIMessage m₁ = isValidMIDIMessage m₂ := by
  cases m₁ with
  | nil =>
    cases m₂ with
    | nil => rfl
    | cons c t2 => simp at hlen
  | cons a t =>
    cases m₂ with
    | nil => simp at hlen
    | cons c t2 =>
      simp only [List.getElem?_cons_zero, Option.some.injEq] at h0
      subst h0
      cases t with
      | nil =>
        cases t2 with
        | nil => rfl
        | cons d u2 => simp at hlen
      | cons b u =>
        cases t2 with
        | nil => simp at hlen
        | cons d u2 =>
          simp only [List.getElem?_cons_succ, List.getElem?_cons_zero,
            Option.some.injEq] at h1
          subst h1
          simp only [List.length_cons, Nat.add_right_cancel_iff] at hlen
          simp only [isValidMIDIMessage, List.length_cons, hlen]

/-- Witness for C9: two note-on messages agreeing on length and first two
bytes but differing in the velocity byte get the same verdict. -/
theorem isValid_deterministic_and_local_witness :
    isValidMIDIMessage [0x90, 0x40, 0x7F] = isValidMIDIMessage [0x90, 0x40, 0x00] :=
  isValid_deterministic_and_local [0x90, 0x40, 0x7F] [0x90, 0x40, 0x00]
    (by decide) (by decide) (by decide)

/-- Claim C3 counterexample: [0xB0, 0x07] is invalid for the validator, yet
the virtual port's receive callback still delivers it to the output port —
the callback never consults the validator. -/
theorem virtualPort_delivers_invalid :
    isValidMIDIMessage [0xB0, 0x07] = false
    ∧ virtualPortOnMessage (fun _ => true) [0xB0, 0x07] =
        MsgOutcome.forwarded [0xB0, 0x07] :=
  ⟨rfl, rfl⟩

/-- Claim C3 as amended: the virtual port's receive callback performs no
validation; whatever the output device does, the callback hands exactly the
received bytes to Send (a send failure is only logged, never propagated). -/
theorem virtualPort_forwards_unvalidated (sendOk : List Nat → Bool) (msg : List Nat) :
    attemptedSend (virtualPortOnMessage sendOk msg) = some msg := by
  cases hsend : sendOk msg <;> simp [virtualPortOnMessage, attemptedSend, hsend]

/-- Claim C4: a 3-byte message whose status nibble is 0xC0 (program change)
is truncated to its first 2 bytes and sent, instead of being rejected. -/
theorem programChange_three_byte_truncated (b d1 d2 : Nat)
    (h : statusNibble b = 0xC0) :
    forwarderOnMessage [b, d1, d2] = ForwardDecision.send [b, d1] := by
  simp [forwarderOnMessage, h]

/-- Witness for C4 at the spec's own example: [0xC0, 0x01, 0x02] is sent
as [0xC0, 0x01]. -/
theorem programChange_three_byte_truncated_witness :
    forwarderOnMessage [0xC0, 0x01, 0x02] = ForwardDecision.send [0xC0, 0x01] :=
  programChange_three_byte_truncated 0xC0 0x01 0x02 (by decide)

/-- Claim C10: the program-change truncation in the callback applies to every
message of length at least 2 whose first byte has high nibble 0xC0 — not only
3-byte ones — and in that case the length validator is bypassed entirely: the
first 2 bytes are sent no matter what the validator would say. -/
theorem programChange_any_length_truncated (msg : List Nat)
    (hlen : 2 ≤ msg.length) (hs : statusNibble (msg.headD 0) = 0xC0) :
    forwarderOnMessage msg = ForwardDecision.send (msg.take 2) := by
  have h0 : 0 < msg.length := by omega
  unfold forwarderOnMessage
  rw [if_pos h0, if_pos (show 2 ≤ msg.length ∧ statusNibble (msg.headD 0) = 0xC0
    from ⟨hlen, hs⟩)]

/-- Witness for C10: a 5-byte program-change-nibble message, rejected by the
validator, is nevertheless sent as its first 2 bytes. -/
theorem programChange_any_length_truncated_witness :
    forwarderOnMessage [0xC3, 1, 2, 3, 4] = ForwardDecision.send [0xC3, 1]
    ∧ isValidMIDIMessage [0xC3, 1, 2, 3, 4] = false :=
  ⟨programChange_any_length_truncated [0xC3, 1, 2, 3, 4] (by decide) (by decide),
   by decide⟩

/-- Claim C8: a per-message Send failure is recovered locally.  Whatever the
output device `sendOk` does, Start (with setup succeeded) returns the
non-error result — never an error caused by a Send —, every message of the
stream is handled (the outcome trace has one entry per message), and the
outcome at each position is a function of that message alone, so a failure on
one message cannot abort or alter the forwarding of the others. -/
theorem send_failure_recovered_locally (sendOk : List Nat → Bool)
    (msgs : List (List Nat)) :
    forwarderStart true true true sendOk msgs =
      Except.ok (msgs.map (handleMessage sendOk))
    ∧ (msgs.map (handleMessage sendOk)).length = msgs.length
    ∧ ∀ i : Nat, (msgs.map (handleMessage sendOk))[i]? =
        Option.map (handleMessage sendOk) msgs[i]? := by
  refine ⟨rfl, by simp, ?_⟩
  intro i
  simp

/-- findPort returns exactly the first port of the enumeration carrying the
requested name. -/
theorem findPort_eq_some_iff (ports : List Port) (target : String) (p : Port) :
    findPort ports target = some p ↔ IsFirstMatch ports target p := by
  induction ports with
  | nil => simp [findPort, IsFirstMatch]
  | cons q rest ih =>
    constructor
    · intro hfind
      by_cases hq : q.name = target
      · have hb : (q.name == target) = true := by simpa using hq
        have hqp : q = p := by simpa [findPort, hb] using hfind
        subst hqp
        exact ⟨hq, [], rest, rfl, by simp⟩
      · have hb : (q.name == target) = false := by simpa using hq
        have hrest : findPort rest target = some p := by
          simpa [findPort, hb] using hfind
        obtain ⟨hp, pre, post, heq, hpre⟩ := ih.1 hrest
        refine ⟨hp, q :: pre, post, by simp [heq], ?_⟩
        intro x hx
        rcases List.mem_cons.1 hx with rfl | hx2
        · exact hq
        · exact hpre x hx2
    · rintro ⟨hp, pre, post, heq, hpre⟩
      cases pre with
      | nil =>
        obtain ⟨h1, h2⟩ : q = p ∧ rest = post := by simpa using heq
        subst h1
        have hb : (q.name == target) = true := by simpa using hp
        simp [findPort, hb]
      | cons a pre2 =>
        obtain ⟨h1, h2⟩ : q = a ∧ rest = pre2 ++ p :: post := by simpa using heq
        have haq : a.name ≠ target := hpre a (List.mem_cons_self a pre2)
        have hb : (q.name == target) = false := by
          rw [h1]
          simpa using haq
        have hrest : findPort rest target = some p :=
          ih.2 ⟨hp, pre2, post, h2, fun x hx => hpre x (List.mem_cons_of_mem a hx)⟩
        simp [findPort, hb, hrest]

/-- findPort misses exactly when no port of the enumeration carries the
requested name. -/
theorem findPort_eq_none_iff (ports : List Port) (target : String) :
    findPort ports target = none ↔ ∀ q ∈ ports, q.name ≠ target := by
  induction ports with
  | nil => simp [findPort]
  | cons q rest ih =>
    by_cases hq : q.name = target <;> simp [findPort, hq, ih]

/-- Claim C7: NewForwarder selects, independently for each direction, the
first port of the enumeration whose name equals the requested name, and when
a direction has no port of that name it returns a not-found error and
constructs no forwarder. -/
theorem newForwarder_first_match_or_not_found
    (ins outs : List Port) (inputName outputName : String) :
    (∀ f, NewForwarder ins outs inputName outputName = Except.ok f →
      IsFirstMatch ins inputName f.input ∧ IsFirstMatch outs outputName f.output)
    ∧ ((∀ q ∈ ins, q.name ≠ inputName) →
      NewForwarder ins outs inputName outputName =
        Except.error (LookupError.inputNotFound inputName))
    ∧ ((∀ q ∈ outs, q.name ≠ outputName) →
      ∀ f, NewForwarder ins outs inputName outputName ≠ Except.ok f) := by
  refine ⟨?_, ?_, ?_⟩
  · intro f hf
    unfold NewForwarder at hf
    cases hin : findPort ins inputName with
    | none => rw [hin] at hf; exact absurd hf (by simp)
    | some i =>
      rw [hin] at hf
      cases hout : findPort outs outputName with
      | none => rw [hout] at hf; exact absurd hf (by simp)
      | some o =>
        rw [hout] at hf
        have hfo : f = Forwarder.mk i o := by
          cases hf
          rfl
        subst hfo
        exact ⟨(findPort_eq_some_iff ins inputName i).1 hin,
          (findPort_eq_some_iff outs outputName o).1 hout⟩
  · intro h
    have hin : findPort ins inputName = none := (findPort_eq_none_iff ins inputName).2 h
    unfold NewForwarder
    rw [hin]
  · intro h f
    have hout : findPort outs outputName = none :=
      (findPort_eq_none_iff outs outputName).2 h
    unfold NewForwarder
    cases hin : findPort ins inputName with
    | none => simp
    | some i => rw [hout]; simp

/-- Witness for C7 on concrete enumerations: with two output-direction ports
both named b, the one listed first (uid 1) is selected together with the
matching input port, and a lookup for an absent name errors out. -/
theorem newForwarder_first_match_or_not_found_witness :
    (IsFirstMatch [⟨0, "a"⟩, ⟨1, "b"⟩, ⟨2, "b"⟩] "b" ⟨1, "b"⟩
      ∧ IsFirstMatch [⟨3, "c"⟩] "c" ⟨3, "c"⟩)
    ∧ NewForwarder [⟨0, "a"⟩] [⟨3, "c"⟩] "z" "c" =
        Except.error (LookupError.inputNotFound "z") :=
  ⟨(newForwarder_first_match_or_not_found
      [⟨0, "a"⟩, ⟨1, "b"⟩, ⟨2, "b"⟩] [⟨3, "c"⟩] "b" "c").1
      ⟨⟨1, "b"⟩, ⟨3, "c"⟩⟩ rfl,
   (newForwarder_first_match_or_not_found [⟨0, "a"⟩] [⟨3, "c"⟩] "z" "c").2.1
      (by decide)⟩

end MidiCable
